import Mathlib

/-!
The device-sdk-go trigger admission and NaN gate

A shallow embedding of

* `internal/controller/http/discovery.go`: the handlers `RestController.Discovery`,
  `RestController.ProfileScan` and the helper `profileScanValidation`;
* `internal/transformer/checkNaN.go`: `isNaN`.

Go values of type `error` are `Option GoError` (`none` is `nil`). Everything a handler reads
from outside its own body (the DI container, the caches, the wall clock, the JSON decoder of
the contracts module, the value received from the `busy` channel) is an explicit input.
-/

namespace DeviceSdk

/-! ## Errors (`go-mod-core-contracts/errors`) -/

/-- The error kinds of the contracts module that the two source files can produce or wrap. -/
inductive ErrKind
  | KindUnknown
  | KindServerError
  | KindNotImplemented
  | KindServiceLocked
  | KindServiceUnavailable
  | KindContractInvalid
  | KindEntityDoesNotExist
  | KindStatusConflict
  | KindDuplicateName
  | KindIOError
  | KindNaNError
  deriving DecidableEq, Repr

/-- A non-nil Go `error`: either a foreign error (only its text is kept) or a `CommonEdgeX`
with its kind, message and wrapped error. -/
inductive GoError
  | errorString (s : String)
  | CommonEdgeX (kind : ErrKind) (message : String) (err : Option GoError)

/-- The function `errors.Kind`: the kind of an EdgeX error, `KindUnknown` for a foreign one. -/
def Kind : GoError → ErrKind
  | .errorString _ => .KindUnknown
  | .CommonEdgeX k _ _ => k

/-- The constructor `errors.NewCommonEdgeX(kind, message, wrappedError)`. -/
def NewCommonEdgeX (kind : ErrKind) (message : String) (wrappedError : Option GoError) : GoError :=
  .CommonEdgeX kind message wrappedError

/-- The constructor `errors.NewCommonEdgeXWrapper(wrappedError)`: same kind, no message of its
own, the argument kept as the wrapped error. -/
def NewCommonEdgeXWrapper (wrappedError : GoError) : GoError :=
  .CommonEdgeX (Kind wrappedError) "" (some wrappedError)

/-! ## Data of the trigger handlers -/

/-- The constant `models.Locked`. -/
def Locked : String := "LOCKED"

/-- The constant `models.Unlocked`. -/
def Unlocked : String := "UNLOCKED"

/-- The constant `common.ApiDiscoveryRoute`. -/
def ApiDiscoveryRoute : String := "/api/v3/discovery"

/-- The constant `common.ApiProfileScan`. -/
def ApiProfileScan : String := "/api/v3/profilescan"

/-- The constant `common.CorrelationHeader`. -/
def CorrelationHeader : String := "X-Correlation-ID"

/-- The constant `http.StatusAccepted`. -/
def StatusAccepted : Nat := 202

/-- A value of Go type `any` as far as a scan request carries one (the `Options` field). -/
inductive GoAny
  | null
  | bool (b : Bool)
  | number (n : Int)
  | string (s : String)
  deriving DecidableEq, Repr

/-- The protocol table of a device: `map[string]models.ProtocolProperties`, as an association
list. -/
abbrev ProtocolMap := List (String × List (String × String))

/-- The fields of `models.Device` the handlers read. -/
structure Device where
  Name : String
  ProfileName : String
  Protocols : ProtocolMap
  deriving DecidableEq, Repr

/-- The fields of `models.DeviceProfile` the handlers could read (only existence is used). -/
structure DeviceProfile where
  Name : String
  deriving DecidableEq, Repr

/-- The DTO `requests.ProfileScanRequest` after `UnmarshalJSON`. -/
structure ProfileScanRequestDTO where
  DeviceName : String
  ProfileName : String
  Options : GoAny
  deriving DecidableEq, Repr

/-- The resolved request `sdkModels.ProfileScanRequest` handed to the scan driver. -/
structure ProfileScanRequest where
  DeviceName : String
  ProfileName : String
  Options : GoAny
  Protocols : ProtocolMap
  deriving DecidableEq, Repr

/-- The response body `commonDTO.BaseResponse`. -/
structure BaseResponse where
  RequestId : String
  Message : String
  StatusCode : Nat
  deriving DecidableEq, Repr

/-- The constructor `commonDTO.NewBaseResponse(requestId, message, statusCode)`. -/
def NewBaseResponse (requestId message : String) (statusCode : Nat) : BaseResponse :=
  { RequestId := requestId, Message := message, StatusCode := statusCode }

/-- A registered profile-scan driver (`interfaces.ProfileScan`), identified by a label. -/
structure ProfileScanDriver where
  label : String
  deriving DecidableEq, Repr

/-- Everything the handlers read from outside: the DI container, the two caches, the clock and
the JSON decoder of the contracts module. -/
structure World where
  /-- The field `AdminState` of `container.DeviceServiceFrom(dic.Get)`. -/
  AdminState : String
  /-- The flag `Device.Discovery.Enabled` of `container.ConfigurationFrom(dic.Get)`. -/
  DiscoveryEnabled : Bool
  /-- The result of `container.ProfileScanFrom(dic.Get)`; `none` is the nil driver. -/
  ProfileScanFrom : Option ProfileScanDriver
  /-- The lookup `cache.Devices().ForName`. -/
  DevicesForName : String → Option Device
  /-- The lookup `cache.Profiles().ForName`. -/
  ProfilesForName : String → Option DeviceProfile
  /-- The reading `time.Now().UnixNano()` taken by this call. -/
  UnixNano : Int
  /-- The method `requests.ProfileScanRequest.UnmarshalJSON`, as a function of the bytes. -/
  UnmarshalJSON : List UInt8 → Except GoError ProfileScanRequestDTO

/-- The inbound `*http.Request` as far as the handlers use it. -/
structure HttpRequest where
  /-- The result of `io.ReadAll(request.Body)`. -/
  ReadAll : Except GoError (List UInt8)
  /-- The result of `correlation.IdFromContext(request.Context())`. -/
  CorrelationId : String

/-- What a handler writes back: `c.sendEdgexError(writer, request, err, api)` or
`c.sendResponse(writer, request, api, response, statusCode)`. -/
inductive HttpReply
  | sendEdgexError (err : GoError) (api : String)
  | sendResponse (api : String) (response : BaseResponse) (statusCode : Nat)

/-- A background unit started with `go func() ...` by a handler. -/
inductive Goroutine
  | discovery (correlationId : String)
  | profileScan (correlationId : String) (ps : ProfileScanDriver) (req : ProfileScanRequest)

/-- The synchronous reply of a handler together with the background unit it launched, if any. -/
structure Handled where
  reply : HttpReply
  spawned : Option Goroutine

/-! ## Decimal rendering (`%d` of `fmt.Sprintf`) -/

/-- The verb `%d` applied to a signed integer: decimal digits, with a leading minus sign for a
negative number. -/
def formatInt : Int → String
  | .ofNat n => Nat.repr n
  | .negSucc n => "-" ++ Nat.repr (n + 1)

/-- The call `fmt.Sprintf("%s_profile_%d", deviceName, unixNano)`. -/
def synthesizedProfileName (deviceName : String) (unixNano : Int) : String :=
  deviceName ++ "_profile_" ++ formatInt unixNano

/-! ## `internal/controller/http/discovery.go` -/

/-- The handler `RestController.Discovery`. -/
def Discovery (w : World) (request : HttpRequest) : Handled :=
  if w.AdminState = Locked then
    { reply := .sendEdgexError (NewCommonEdgeX .KindServiceLocked "service locked" none)
        ApiDiscoveryRoute,
      spawned := none }
  else if !w.DiscoveryEnabled then
    { reply := .sendEdgexError
        (NewCommonEdgeX .KindServiceUnavailable "device discovery disabled" none)
        ApiDiscoveryRoute,
      spawned := none }
  else
    let correlationId := request.CorrelationId
    let response := NewBaseResponse ""
      ("Trigger discovery with correlationId " ++ correlationId) StatusAccepted
    { reply := .sendResponse ApiDiscoveryRoute response StatusAccepted,
      spawned := some (.discovery correlationId) }

/-- The helper `profileScanValidation`: the resolved request and the error (`none` is nil). On
every error path the zero-valued request `r` is returned, as in the source. -/
def profileScanValidation (request : List UInt8) (w : World) :
    ProfileScanRequest × Option GoError :=
  let r : ProfileScanRequest :=
    { DeviceName := "", ProfileName := "", Options := .null, Protocols := [] }
  -- check device service AdminState
  if w.AdminState = Locked then
    (r, some (NewCommonEdgeX .KindServiceLocked "service locked" none))
  else
    -- parse request payload
    match w.UnmarshalJSON request with
    | .error err =>
      (r, some (NewCommonEdgeX .KindContractInvalid "failed to parse request body" (some err)))
    | .ok req =>
      -- check requested device exists
      match w.DevicesForName req.DeviceName with
      | none =>
        (r, some (NewCommonEdgeX .KindEntityDoesNotExist
          ("device " ++ req.DeviceName ++ " not found") none))
      | some device =>
        -- check profile should not exist
        if req.ProfileName ≠ "" then
          match w.ProfilesForName req.ProfileName with
          | some _ =>
            (r, some (NewCommonEdgeX .KindStatusConflict
              ("profile name " ++ req.ProfileName ++ " is duplicated") none))
          | none =>
            ({ DeviceName := req.DeviceName, ProfileName := req.ProfileName,
               Options := req.Options, Protocols := device.Protocols }, none)
        else
          ({ DeviceName := req.DeviceName,
             ProfileName := synthesizedProfileName req.DeviceName w.UnixNano,
             Options := req.Options, Protocols := device.Protocols }, none)

/-- The handler `RestController.ProfileScan`. The argument `b` is the value received from the
`busy` channel (`b := <-busy`); it is read only after validation has passed and the background
unit has been launched. -/
def ProfileScan (w : World) (request : HttpRequest) (b : Bool) : Handled :=
  match request.ReadAll with
  | .error err =>
    { reply := .sendEdgexError
        (NewCommonEdgeX .KindServerError "Failed to read request body" (some err))
        ApiProfileScan,
      spawned := none }
  | .ok body =>
    match w.ProfileScanFrom with
    | none =>
      { reply := .sendEdgexError
          (NewCommonEdgeX .KindNotImplemented "Profile scan is not implemented" none)
          ApiProfileScan,
        spawned := none }
    | some ps =>
      match profileScanValidation body w with
      | (_, some edgexErr) =>
        { reply := .sendEdgexError edgexErr ApiProfileScan, spawned := none }
      | (req, none) =>
        let correlationId := request.CorrelationId
        if b then
          { reply := .sendEdgexError
              (NewCommonEdgeX .KindStatusConflict
                ("Another profile scan process for " ++ req.DeviceName ++
                  " is currently running") none)
              ApiProfileScan,
            spawned := some (.profileScan correlationId ps req) }
        else
          { reply := .sendResponse ApiProfileScan
              (NewBaseResponse "" ("Trigger profile scan with correlationId " ++ correlationId)
                StatusAccepted)
              StatusAccepted,
            spawned := some (.profileScan correlationId ps req) }

/-! ## `internal/transformer/checkNaN.go` -/

/-- A Go `float32`: the three fields of its IEEE-754 binary32 bit pattern. -/
structure float32 where
  sign : Bool
  exponent : Fin 256
  fraction : Fin (2 ^ 23)
  deriving DecidableEq

/-- A Go `float64`: the three fields of its IEEE-754 binary64 bit pattern. -/
structure float64 where
  sign : Bool
  exponent : Fin 2048
  fraction : Fin (2 ^ 52)
  deriving DecidableEq

/-- The binary32 patterns that encode Not-a-Number: exponent all ones, fraction not zero. -/
def float32.isNaNPattern (v : float32) : Bool :=
  v.exponent.val == 255 && v.fraction.val != 0

/-- The binary64 patterns that encode Not-a-Number: exponent all ones, fraction not zero. -/
def float64.isNaNPattern (f : float64) : Bool :=
  f.exponent.val == 2047 && f.fraction.val != 0

/-- The binary64 patterns that encode an infinity: exponent all ones, fraction zero. -/
def float64.isInfPattern (f : float64) : Bool :=
  f.exponent.val == 2047 && f.fraction.val == 0

/-- The binary64 patterns that encode a finite number: exponent not all ones. -/
def float64.isFinitePattern (f : float64) : Bool :=
  f.exponent.val != 2047

/-- The binary32 patterns that encode an infinity. -/
def float32.isInfPattern (v : float32) : Bool :=
  v.exponent.val == 255 && v.fraction.val == 0

/-- The binary32 patterns that encode a finite number. -/
def float32.isFinitePattern (v : float32) : Bool :=
  v.exponent.val != 255

/-- The binary64 patterns that encode a zero (of either sign). -/
def float64.isZeroPattern (f : float64) : Bool :=
  f.exponent.val == 0 && f.fraction.val == 0

/-- The Go conversion `float64(v)` of a `float32`: exact for every number, infinities stay
infinities, a NaN stays a NaN (payload kept in the high fraction bits, quiet bit set), and a
subnormal binary32 `f * 2^-149` becomes the normal binary64 with unbiased exponent
`k - 149` for `k` the position of the highest set bit of `f`. -/
def float64.ofFloat32 (v : float32) : float64 :=
  let e := v.exponent.val
  let f := v.fraction.val
  if e = 255 then
    if f = 0 then
      { sign := v.sign, exponent := ⟨2047, by decide⟩, fraction := ⟨0, by decide⟩ }
    else
      { sign := v.sign, exponent := ⟨2047, by decide⟩,
        fraction := ⟨(f * 2 ^ 29 + (if f < 2 ^ 22 then 2 ^ 51 else 0)) % 2 ^ 52,
          Nat.mod_lt _ (by decide)⟩ }
  else if e = 0 then
    if f = 0 then
      { sign := v.sign, exponent := ⟨0, by decide⟩, fraction := ⟨0, by decide⟩ }
    else
      let k := Nat.log2 f
      { sign := v.sign, exponent := ⟨(k + 874) % 2048, Nat.mod_lt _ (by decide)⟩,
        fraction := ⟨((f - 2 ^ k) * 2 ^ (52 - k)) % 2 ^ 52, Nat.mod_lt _ (by decide)⟩ }
  else
    { sign := v.sign, exponent := ⟨(e + 896) % 2048, Nat.mod_lt _ (by decide)⟩,
      fraction := ⟨(f * 2 ^ 29) % 2 ^ 52, Nat.mod_lt _ (by decide)⟩ }

/-- The Go comparison `x == y` on `float64` (IEEE-754): a NaN equals nothing, the two zeros
are equal, every other value equals exactly itself. -/
def float64.goEq (x y : float64) : Bool :=
  !x.isNaNPattern && !y.isNaNPattern &&
    (decide (x = y) || (x.isZeroPattern && y.isZeroPattern))

/-- The Go comparison `x != y` on `float64`. -/
def float64.goNe (x y : float64) : Bool := !(float64.goEq x y)

/-- The library function `math.IsNaN`, whose body is `return f != f`. -/
def IsNaN (f : float64) : Bool := float64.goNe f f

/-- The constant `common.ValueTypeFloat32`. -/
def ValueTypeFloat32 : String := "Float32"

/-- The constant `common.ValueTypeFloat64`. -/
def ValueTypeFloat64 : String := "Float64"

/-- The dynamic value a `CommandValue` carries in its field `Value` (Go type `any`). -/
inductive GoValue
  | nil
  | bool (b : Bool)
  | string (s : String)
  | int64 (i : Int)
  | uint64 (n : Nat)
  | float32 (v : float32)
  | float64 (f : float64)
  | bytes (bs : List UInt8)
  deriving DecidableEq

/-- The reading `models.CommandValue`. The field `ValueType` is the Go field `Type`. -/
structure CommandValue where
  DeviceResourceName : String
  ValueType : String
  Value : GoValue
  deriving DecidableEq

/-- The two decoders of `models.CommandValue` that `isNaN` calls, as functions of the reading:
`cv.Float32Value()` and `cv.Float64Value()`. -/
structure Decoders where
  Float32Value : CommandValue → Except GoError float32
  Float64Value : CommandValue → Except GoError float64

/-- The function `isNaN`: the boolean and the error (`none` is nil). -/
def isNaN (D : Decoders) (cv : CommandValue) : Bool × Option GoError :=
  if cv.ValueType = ValueTypeFloat32 then
    match D.Float32Value cv with
    | .error err => (false, some (NewCommonEdgeXWrapper err))
    | .ok v =>
      if IsNaN (float64.ofFloat32 v) then (true, none)
      else (false, none)
  else if cv.ValueType = ValueTypeFloat64 then
    match D.Float64Value cv with
    | .error err => (false, some (NewCommonEdgeXWrapper err))
    | .ok v =>
      if IsNaN v then (true, none)
      else (false, none)
  else (false, none)

/-- A decoder pair that type-asserts the carried value, as a concrete instance: a reading of
the wrong kind or carrying a value of another dynamic type fails with a server error. -/
def assertingDecoders : Decoders where
  Float32Value := fun cv =>
    if cv.ValueType ≠ ValueTypeFloat32 then
      .error (NewCommonEdgeX .KindServerError "cannot convert CommandValue to Float32" none)
    else match cv.Value with
      | .float32 v => .ok v
      | _ => .error (NewCommonEdgeX .KindServerError "failed to transfrom value to float32" none)
  Float64Value := fun cv =>
    if cv.ValueType ≠ ValueTypeFloat64 then
      .error (NewCommonEdgeX .KindServerError "cannot convert CommandValue to Float64" none)
    else match cv.Value with
      | .float64 f => .ok f
      | _ => .error (NewCommonEdgeX .KindServerError "failed to transfrom value to float64" none)

/-- The error kind a reply rejects with; `none` for a normal response. -/
def HttpReply.rejectedKind : HttpReply → Option ErrKind
  | .sendEdgexError err _ => some (Kind err)
  | .sendResponse _ _ _ => none

/-- The zero value of `sdkModels.ProfileScanRequest` (`var r sdkModels.ProfileScanRequest`),
returned next to every validation error. -/
def zeroProfileScanRequest : ProfileScanRequest :=
  { DeviceName := "", ProfileName := "", Options := .null, Protocols := [] }

/-- A reply is an acceptance: a normal response with status 202. -/
def HttpReply.isAccepted : HttpReply → Bool
  | .sendEdgexError _ _ => false
  | .sendResponse _ _ statusCode => statusCode == StatusAccepted

/-! ## Reading a decimal back (used to show that `%d` loses nothing) -/

/-- Value of a run of decimal digit characters, most significant first, continuing from
`acc`. -/
def decVal (acc : Nat) (cs : List Char) : Nat :=
  cs.foldl (fun a c => 10 * a + (c.toNat - 48)) acc

/-- Reads back a signed decimal: an optional leading minus sign, then digits. -/
def parseInt : List Char → Int
  | '-' :: rest => -((decVal 0 rest : Nat) : Int)
  | cs => ((decVal 0 cs : Nat) : Int)

/-! ## Concrete inputs -/

/-- A JSON decoder for the examples, keyed on the length of the body: an empty body is
malformed; one byte asks for a scan of `thermostat-1` with no profile name; two bytes name the
existing profile `known-profile`; three bytes ask for the unknown device `ghost` and name the
existing profile; longer bodies name the unused profile `fresh-profile`. -/
def sampleUnmarshalJSON (body : List UInt8) : Except GoError ProfileScanRequestDTO :=
  match body.length with
  | 0 => .error (.errorString "unexpected end of JSON input")
  | 1 => .ok { DeviceName := "thermostat-1", ProfileName := "", Options := .null }
  | 2 => .ok { DeviceName := "thermostat-1", ProfileName := "known-profile", Options := .null }
  | 3 => .ok { DeviceName := "ghost", ProfileName := "known-profile", Options := .null }
  | _ => .ok { DeviceName := "thermostat-1", ProfileName := "fresh-profile",
               Options := .string "fast" }

/-- A world for the examples: one device `thermostat-1`, the profiles `known-profile` and
`thermostat-1_profile_42`, and a clock reading of 42 ns. -/
def sampleWorld (adminState : String) (enabled : Bool) (ps : Option ProfileScanDriver) : World :=
  { AdminState := adminState
    DiscoveryEnabled := enabled
    ProfileScanFrom := ps
    DevicesForName := fun name =>
      if name = "thermostat-1" then
        some { Name := "thermostat-1", ProfileName := "thermostat",
               Protocols := [("modbus-tcp", [("Address", "10.0.0.7")])] }
      else none
    ProfilesForName := fun name =>
      if name = "known-profile" ∨ name = "thermostat-1_profile_42" then some { Name := name }
      else none
    UnixNano := 42
    UnmarshalJSON := sampleUnmarshalJSON }

/-- The same world with another clock reading. -/
def sampleWorldAt (unixNano : Int) : World :=
  { sampleWorld Unlocked true (some { label := "driver" }) with UnixNano := unixNano }

/-- A request whose body has `n` bytes and reads without error. -/
def sampleRequest (n : Nat) : HttpRequest :=
  { ReadAll := .ok (List.replicate n 0), CorrelationId := "corr-1" }

/-- A request whose body cannot be read. -/
def brokenRequest : HttpRequest :=
  { ReadAll := .error (.errorString "unexpected EOF"), CorrelationId := "corr-2" }

/-- A quiet NaN as a `float32`: exponent all ones, top fraction bit set. -/
def quietNaN32 : float32 :=
  { sign := false, exponent := ⟨255, by decide⟩, fraction := ⟨4194304, by decide⟩ }

/-- Positive infinity as a `float64`: exponent all ones, fraction zero. -/
def posInf64 : float64 :=
  { sign := false, exponent := ⟨2047, by decide⟩, fraction := ⟨0, by decide⟩ }

/-- A Float32 reading that carries a NaN. -/
def nanReading32 : CommandValue :=
  { DeviceResourceName := "temperature", ValueType := ValueTypeFloat32,
    Value := .float32 quietNaN32 }

/-- A Float64 reading that carries positive infinity. -/
def infReading64 : CommandValue :=
  { DeviceResourceName := "pressure", ValueType := ValueTypeFloat64, Value := .float64 posInf64 }

/-- A reading of kind Int64 whose carried value is text, so that no numeric decoder accepts
it. -/
def textReadingInt64 : CommandValue :=
  { DeviceResourceName := "counter", ValueType := "Int64", Value := .string "not a number" }

/-- A reading of kind Float64 whose carried value is text: its decoder fails. -/
def textReadingFloat64 : CommandValue :=
  { DeviceResourceName := "pressure", ValueType := ValueTypeFloat64,
    Value := .string "not a number" }

/-- Two calls of `profileScanValidation` one right after the other: the container and the
caches are the same, the clock reads `t1` during the first call and `t2` during the second. -/
def validateTwice (w : World) (t1 t2 : Int) (body1 body2 : List UInt8) :
    (ProfileScanRequest × Option GoError) × (ProfileScanRequest × Option GoError) :=
  (profileScanValidation body1 { w with UnixNano := t1 },
   profileScanValidation body2 { w with UnixNano := t2 })

/-! ## The operation guard and the background unit of a scan -/

/-- Modelled from the spec: the OperationGuard of section 4.2, which lives with
`application.ProfileScanWrapper` and is not among the sources. The guard is the set of target
names that currently have a GuardEntry. -/
structure OperationGuard where
  entries : List String
  deriving DecidableEq, Repr

/-- Modelled from the spec: `TryAcquire(targetName)` of section 4.2, one atomic step. If an
entry for the target exists it returns false and creates nothing; otherwise it creates the
entry and returns true. -/
def OperationGuard.TryAcquire (g : OperationGuard) (targetName : String) :
    Bool × OperationGuard :=
  if targetName ∈ g.entries then (false, g)
  else (true, { entries := targetName :: g.entries })

/-- Modelled from the spec: `Release(targetName)` of section 4.2. It removes the entry of the
target and does nothing when there is none. -/
def OperationGuard.Release (g : OperationGuard) (targetName : String) : OperationGuard :=
  { entries := g.entries.filter (fun n => decide (n ≠ targetName)) }

/-- The two scan requests of a pair. -/
inductive Which
  | first
  | second
  deriving DecidableEq, Repr, Fintype

/-- Modelled from the spec: where the background unit of a validated request stands (section
4.4, steps 2 and 3). `launched`: it has not reached the guard yet. `refused`: acquisition
failed, it signalled busy and exited without doing work. `scanning`: it acquired the guard,
signalled not busy and runs the driver. `released`: the scan ended and it released the
guard. -/
inductive UnitPhase
  | launched
  | refused
  | scanning
  | released
  deriving DecidableEq, Repr

/-- The atomic steps of which an interleaving of two background units is made: the unit of a
request attempts the acquisition (and signals the result), or it ends (releasing the guard if
it holds it). -/
inductive GuardEvent
  | attempt (u : Which)
  | finish (u : Which)
  deriving DecidableEq, Repr, Fintype

/-- The shared guard and the phases of the two background units. -/
structure ScanPair where
  guard : OperationGuard
  first : UnitPhase
  second : UnitPhase
  deriving DecidableEq, Repr

/-- The phase of one unit of the pair. -/
def ScanPair.phase (s : ScanPair) : Which → UnitPhase
  | .first => s.first
  | .second => s.second

/-- The pair with the phase of one unit replaced. -/
def ScanPair.setPhase (s : ScanPair) (u : Which) (p : UnitPhase) : ScanPair :=
  match u with
  | .first => { s with first := p }
  | .second => { s with second := p }

/-- Modelled from the spec: one atomic step of the background unit started by `ProfileScan`
(`application.ProfileScanWrapper`, not among the sources), as section 4.4 describes it. An
attempt by a unit that has not reached the guard calls `TryAcquire` on its target and moves to
`scanning` or `refused`; the end of a scanning unit calls `Release`. Any other event leaves the
pair as it is. -/
def ScanPair.step (target : Which → String) (s : ScanPair) : GuardEvent → ScanPair
  | .attempt u =>
    match s.phase u with
    | .launched =>
      match s.guard.TryAcquire (target u) with
      | (true, g) => ({ s with guard := g }).setPhase u .scanning
      | (false, _) => s.setPhase u .refused
    | _ => s
  | .finish u =>
    match s.phase u with
    | .scanning => ({ s with guard := s.guard.Release (target u) }).setPhase u .released
    | _ => s

/-- The pair after the events of a schedule, in order. -/
def ScanPair.run (target : Which → String) (s : ScanPair) (schedule : List GuardEvent) :
    ScanPair :=
  schedule.foldl (ScanPair.step target) s

/-- Modelled from the spec: the single value a background unit sends on its `busy` channel:
nothing before it reaches the guard, `true` when acquisition failed, `false` when it
succeeded. -/
def UnitPhase.busySignal : UnitPhase → Option Bool
  | .launched => none
  | .refused => some true
  | .scanning => some false
  | .released => some false

/-- The synchronous answer of `ProfileScan` for a request whose background unit is in phase
`p`: the handler applied to the value received from `busy`, and no answer yet while nothing
was sent. -/
def triggerAnswer (w : World) (request : HttpRequest) (p : UnitPhase) : Option Handled :=
  p.busySignal.map (ProfileScan w request)

/-- An answer was given and it is an acceptance. -/
def isAcceptedAnswer : Option Handled → Bool
  | some h => h.reply.isAccepted
  | none => false

/-- An answer was given and it is a Conflict rejection. -/
def isConflictAnswer : Option Handled → Bool
  | some h => h.reply.rejectedKind == some ErrKind.KindStatusConflict
  | none => false

/-- The target names of the two units: the DeviceName of their validated requests. -/
def pairTarget (req1 req2 : ProfileScanRequest) : Which → String
  | .first => req1.DeviceName
  | .second => req2.DeviceName

/-- The pair before any unit has reached the guard. -/
def ScanPair.start (g : OperationGuard) : ScanPair :=
  { guard := g, first := .launched, second := .launched }

/-- A schedule is an interleaving of the two units: each of the four events occurs exactly
once, and every unit attempts before it ends. -/
def isInterleaving (schedule : List GuardEvent) : Bool :=
  schedule.length == 4 &&
  schedule.count (.attempt .first) == 1 && schedule.count (.finish .first) == 1 &&
  schedule.count (.attempt .second) == 1 && schedule.count (.finish .second) == 1 &&
  decide (schedule.indexOf (.attempt .first) < schedule.indexOf (.finish .first)) &&
  decide (schedule.indexOf (.attempt .second) < schedule.indexOf (.finish .second))

/-- The two requests overlap: each unit attempts the acquisition before the other unit
ends. -/
def overlapping (schedule : List GuardEvent) : Bool :=
  decide (schedule.indexOf (.attempt .second) < schedule.indexOf (.finish .first)) &&
  decide (schedule.indexOf (.attempt .first) < schedule.indexOf (.finish .second))

/-- The six interleavings of two units, listed. -/
def allInterleavings : List (List GuardEvent) :=
  [ [.attempt .first, .finish .first, .attempt .second, .finish .second],
    [.attempt .second, .finish .second, .attempt .first, .finish .first],
    [.attempt .first, .attempt .second, .finish .first, .finish .second],
    [.attempt .first, .attempt .second, .finish .second, .finish .first],
    [.attempt .second, .attempt .first, .finish .first, .finish .second],
    [.attempt .second, .attempt .first, .finish .second, .finish .first] ]

/-- The validated request of the first unit in the examples: `thermostat-1` with the supplied
name `fresh-profile`. -/
def firstScan : ProfileScanRequest :=
  { DeviceName := "thermostat-1", ProfileName := "fresh-profile", Options := .string "fast",
    Protocols := [("modbus-tcp", [("Address", "10.0.0.7")])] }

/-- The validated request of the second unit in the examples: `thermostat-1` with the name
synthesized at 8 ns. -/
def secondScan : ProfileScanRequest :=
  { DeviceName := "thermostat-1", ProfileName := "thermostat-1_profile_8", Options := .null,
    Protocols := [("modbus-tcp", [("Address", "10.0.0.7")])] }

/-- A schedule in which both units attempt before either ends. -/
def overlapSchedule : List GuardEvent :=
  [.attempt .first, .attempt .second, .finish .first, .finish .second]

/-! ## Lock precedence and the admission tables -/

/-- C1, the claim as stated fails: with the service Locked and no profile-scan driver
registered, `ProfileScan` answers NotImplemented, and with the service Locked and an unreadable
body it answers ServerError; neither is ServiceLocked. -/
theorem lock_precedence_fails_without_driver :
    (sampleWorld Locked true none).AdminState = Locked ∧
    (ProfileScan (sampleWorld Locked true none) (sampleRequest 1) false).reply.rejectedKind
      = some ErrKind.KindNotImplemented ∧
    (ProfileScan (sampleWorld Locked true (some { label := "driver" })) brokenRequest
      false).reply.rejectedKind = some ErrKind.KindServerError := by
  refine ⟨rfl, ?_, ?_⟩ <;> rfl

/-- C1, amended: when the service is Locked, `Discovery` answers ServiceLocked for every request
and configuration, `profileScanValidation` answers ServiceLocked for every body, and
`ProfileScan` answers ServiceLocked for every request whose body was read and for which a
profile-scan driver is registered, whatever the registries hold and whatever the busy value. -/
theorem lock_precedence (w : World) (hl : w.AdminState = Locked) :
    (∀ request, Discovery w request =
      { reply := .sendEdgexError (NewCommonEdgeX .KindServiceLocked "service locked" none)
          ApiDiscoveryRoute,
        spawned := none }) ∧
    (∀ body, profileScanValidation body w =
      (zeroProfileScanRequest, some (NewCommonEdgeX .KindServiceLocked "service locked" none))) ∧
    (∀ request body ps b, request.ReadAll = .ok body → w.ProfileScanFrom = some ps →
      ProfileScan w request b =
        { reply := .sendEdgexError (NewCommonEdgeX .KindServiceLocked "service locked" none)
            ApiProfileScan,
          spawned := none }) := by
  refine ⟨?_, ?_, ?_⟩
  · intro request
    simp [Discovery, hl]
  · intro body
    simp [profileScanValidation, hl, zeroProfileScanRequest]
  · intro request body ps b hb hps
    simp [ProfileScan, hb, hps, profileScanValidation, hl]

/-- C1, the amended statement at a concrete locked world with discovery disabled. -/
theorem lock_precedence_witness :
    (sampleWorld Locked false (some { label := "driver" })).AdminState = Locked ∧
    Discovery (sampleWorld Locked false (some { label := "driver" })) (sampleRequest 0) =
      { reply := .sendEdgexError (NewCommonEdgeX .KindServiceLocked "service locked" none)
          ApiDiscoveryRoute,
        spawned := none } ∧
    ProfileScan (sampleWorld Locked false (some { label := "driver" })) (sampleRequest 2) true =
      { reply := .sendEdgexError (NewCommonEdgeX .KindServiceLocked "service locked" none)
          ApiProfileScan,
        spawned := none } :=
  ⟨rfl,
   (lock_precedence (sampleWorld Locked false (some { label := "driver" })) rfl).1
     (sampleRequest 0),
   (lock_precedence (sampleWorld Locked false (some { label := "driver" })) rfl).2.2
     (sampleRequest 2) (List.replicate 2 0) { label := "driver" } true rfl rfl⟩

/-- C6: the admission table of `Discovery`. The lock is tested first and the feature flag
second: ServiceLocked when Locked; ServiceUnavailable when not Locked and discovery is
disabled; otherwise a 202 response whose message ends with the correlation id. It is accepted
exactly when the service is not Locked and discovery is enabled, it never answers with any
other kind (in particular never Conflict), and the answer is a function of the lock, the flag
and the correlation id alone, so no earlier or overlapping trigger can change it. -/
theorem Discovery_admission_table (w : World) (request : HttpRequest) :
    (w.AdminState = Locked →
      Discovery w request =
        { reply := .sendEdgexError (NewCommonEdgeX .KindServiceLocked "service locked" none)
            ApiDiscoveryRoute,
          spawned := none }) ∧
    (w.AdminState ≠ Locked → w.DiscoveryEnabled = false →
      Discovery w request =
        { reply := .sendEdgexError
            (NewCommonEdgeX .KindServiceUnavailable "device discovery disabled" none)
            ApiDiscoveryRoute,
          spawned := none }) ∧
    (w.AdminState ≠ Locked → w.DiscoveryEnabled = true →
      Discovery w request =
        { reply := .sendResponse ApiDiscoveryRoute
            (NewBaseResponse "" ("Trigger discovery with correlationId " ++
              request.CorrelationId) 202) 202,
          spawned := some (.discovery request.CorrelationId) }) ∧
    ((Discovery w request).reply.isAccepted = true ↔
      (w.AdminState ≠ Locked ∧ w.DiscoveryEnabled = true)) ∧
    ((Discovery w request).reply.rejectedKind = none ∨
      (Discovery w request).reply.rejectedKind = some .KindServiceLocked ∨
      (Discovery w request).reply.rejectedKind = some .KindServiceUnavailable) ∧
    (∀ w' : World, ∀ request' : HttpRequest, w'.AdminState = w.AdminState →
      w'.DiscoveryEnabled = w.DiscoveryEnabled → request'.CorrelationId = request.CorrelationId →
      Discovery w' request' = Discovery w request) := by
  refine ⟨?_, ?_, ?_, ?_, ?_, ?_⟩
  · intro hl
    simp [Discovery, hl]
  · intro hl he
    simp [Discovery, hl, he]
  · intro hl he
    simp [Discovery, hl, he, StatusAccepted]
  · by_cases hl : w.AdminState = Locked
    · simp [Discovery, hl, HttpReply.isAccepted]
    · cases he : w.DiscoveryEnabled <;> simp [Discovery, hl, he, HttpReply.isAccepted]
  · by_cases hl : w.AdminState = Locked
    · simp [Discovery, hl, HttpReply.rejectedKind, NewCommonEdgeX, Kind]
    · cases he : w.DiscoveryEnabled <;>
        simp [Discovery, hl, he, HttpReply.rejectedKind, NewCommonEdgeX, Kind]
  · intro w' request' h1 h2 h3
    simp [Discovery, h1, h2, h3]

/-- C3: `profileScanValidation` reports the first failing check in the order lock, payload
decode, device existence, duplicate name, and succeeds exactly when none of the four fails.
The device check comes before the name check, so an unknown device gives EntityDoesNotExist
whatever the ProfileName is. -/
theorem profileScanValidation_first_failure (request : List UInt8) (w : World) :
    (w.AdminState = Locked →
      profileScanValidation request w =
        (zeroProfileScanRequest,
          some (NewCommonEdgeX .KindServiceLocked "service locked" none))) ∧
    (∀ err, w.AdminState ≠ Locked → w.UnmarshalJSON request = .error err →
      profileScanValidation request w =
        (zeroProfileScanRequest,
          some (NewCommonEdgeX .KindContractInvalid "failed to parse request body"
            (some err)))) ∧
    (∀ req, w.AdminState ≠ Locked → w.UnmarshalJSON request = .ok req →
      w.DevicesForName req.DeviceName = none →
      profileScanValidation request w =
        (zeroProfileScanRequest,
          some (NewCommonEdgeX .KindEntityDoesNotExist
            ("device " ++ req.DeviceName ++ " not found") none))) ∧
    (∀ req device profile, w.AdminState ≠ Locked → w.UnmarshalJSON request = .ok req →
      w.DevicesForName req.DeviceName = some device → req.ProfileName ≠ "" →
      w.ProfilesForName req.ProfileName = some profile →
      profileScanValidation request w =
        (zeroProfileScanRequest,
          some (NewCommonEdgeX .KindStatusConflict
            ("profile name " ++ req.ProfileName ++ " is duplicated") none))) ∧
    ((profileScanValidation request w).2 = none ↔
      (w.AdminState ≠ Locked ∧
        ∃ req, w.UnmarshalJSON request = .ok req ∧
          (w.DevicesForName req.DeviceName).isSome = true ∧
          ¬ (req.ProfileName ≠ "" ∧ (w.ProfilesForName req.ProfileName).isSome = true))) := by
  refine ⟨?_, ?_, ?_, ?_, ?_⟩
  · intro hl
    simp [profileScanValidation, hl, zeroProfileScanRequest]
  · intro err hl hu
    simp [profileScanValidation, hl, hu, zeroProfileScanRequest]
  · intro req hl hu hd
    simp [profileScanValidation, hl, hu, hd, zeroProfileScanRequest]
  · intro req device profile hl hu hd hn hp
    simp [profileScanValidation, hl, hu, hd, hn, hp, zeroProfileScanRequest]
  · by_cases hl : w.AdminState = Locked
    · simp [profileScanValidation, hl]
    · cases hu : w.UnmarshalJSON request with
      | error err => simp [profileScanValidation, hl, hu]
      | ok req =>
        cases hd : w.DevicesForName req.DeviceName with
        | none => simp [profileScanValidation, hl, hu, hd]
        | some device =>
          by_cases hn : req.ProfileName = ""
          · simp [profileScanValidation, hl, hu, hd, hn]
          · cases hp : w.ProfilesForName req.ProfileName with
            | none => simp [profileScanValidation, hl, hu, hd, hn, hp]
            | some profile => simp [profileScanValidation, hl, hu, hd, hn, hp]

/-- C9, the claim as stated fails: a request that names the existing profile `known-profile`
but asks for the unknown device `ghost` is rejected with EntityDoesNotExist, not with
Conflict. -/
theorem duplicate_name_not_always_conflict :
    (sampleWorldAt 7).UnmarshalJSON (List.replicate 3 0) =
      .ok { DeviceName := "ghost", ProfileName := "known-profile", Options := .null } ∧
    ((sampleWorldAt 7).ProfilesForName "known-profile").isSome = true ∧
    (ProfileScan (sampleWorldAt 7) (sampleRequest 3) false).reply.rejectedKind
      = some ErrKind.KindEntityDoesNotExist ∧
    (ProfileScan (sampleWorldAt 7) (sampleRequest 3) false).reply.rejectedKind
      ≠ some ErrKind.KindStatusConflict := by
  refine ⟨rfl, rfl, rfl, ?_⟩
  decide

/-- C9, amended: a scan request that gets as far as the name check (body read, driver
registered, service not Locked, payload decoded, device known) and whose non-empty ProfileName
names an existing profile is rejected with Conflict "profile name ... is duplicated". The
rejection is made by validation: no background unit is launched and the answer is the same
for either busy value. -/
theorem duplicate_name_rejected (w : World) (request : HttpRequest) (body : List UInt8)
    (ps : ProfileScanDriver) (req : ProfileScanRequestDTO) (device : Device)
    (profile : DeviceProfile)
    (hbody : request.ReadAll = .ok body) (hps : w.ProfileScanFrom = some ps)
    (hl : w.AdminState ≠ Locked) (hu : w.UnmarshalJSON body = .ok req)
    (hd : w.DevicesForName req.DeviceName = some device)
    (hn : req.ProfileName ≠ "") (hp : w.ProfilesForName req.ProfileName = some profile) :
    ∀ b, ProfileScan w request b =
      { reply := .sendEdgexError
          (NewCommonEdgeX .KindStatusConflict
            ("profile name " ++ req.ProfileName ++ " is duplicated") none)
          ApiProfileScan,
        spawned := none } := by
  intro b
  simp [ProfileScan, hbody, hps, profileScanValidation, hl, hu, hd, hn, hp]

/-- C9, the amended statement at a concrete request for `thermostat-1` naming
`known-profile`, with the busy value true. -/
theorem duplicate_name_rejected_witness :
    ProfileScan (sampleWorldAt 7) (sampleRequest 2) true =
      { reply := .sendEdgexError
          (NewCommonEdgeX .KindStatusConflict "profile name known-profile is duplicated" none)
          ApiProfileScan,
        spawned := none } :=
  duplicate_name_rejected (sampleWorldAt 7) (sampleRequest 2) (List.replicate 2 0)
    { label := "driver" }
    { DeviceName := "thermostat-1", ProfileName := "known-profile", Options := .null }
    { Name := "thermostat-1", ProfileName := "thermostat",
      Protocols := [("modbus-tcp", [("Address", "10.0.0.7")])] }
    { Name := "known-profile" }
    rfl rfl (by decide) rfl rfl (by decide) rfl true

/-- C10: once the body is read, a driver is registered and validation has returned the request
`req` without error, the synchronous answer of `ProfileScan` depends on the busy value alone:
for `true` it is Conflict with a message naming `req.DeviceName`, for `false` it is a 202
response whose message ends with the correlation id; it is a Conflict exactly when the value
is true. The background unit is launched in both cases and nothing about its later course
enters the answer. -/
theorem ProfileScan_decision (w : World) (request : HttpRequest) (body : List UInt8)
    (ps : ProfileScanDriver) (req : ProfileScanRequest)
    (hbody : request.ReadAll = .ok body) (hps : w.ProfileScanFrom = some ps)
    (hv : profileScanValidation body w = (req, none)) :
    ProfileScan w request true =
      { reply := .sendEdgexError
          (NewCommonEdgeX .KindStatusConflict
            ("Another profile scan process for " ++ req.DeviceName ++ " is currently running")
            none)
          ApiProfileScan,
        spawned := some (.profileScan request.CorrelationId ps req) } ∧
    ProfileScan w request false =
      { reply := .sendResponse ApiProfileScan
          (NewBaseResponse "" ("Trigger profile scan with correlationId " ++
            request.CorrelationId) 202) 202,
        spawned := some (.profileScan request.CorrelationId ps req) } ∧
    (∀ b, (ProfileScan w request b).reply.rejectedKind = some .KindStatusConflict ↔ b = true) ∧
    (∀ b, (ProfileScan w request b).reply.isAccepted = true ↔ b = false) := by
  refine ⟨?_, ?_, ?_, ?_⟩
  · simp [ProfileScan, hbody, hps, hv]
  · simp [ProfileScan, hbody, hps, hv, StatusAccepted]
  · intro b
    cases b <;> simp [ProfileScan, hbody, hps, hv, HttpReply.rejectedKind, NewCommonEdgeX, Kind]
  · intro b
    cases b <;> simp [ProfileScan, hbody, hps, hv, HttpReply.isAccepted]

/-- C10, the decision step at a concrete validated request for `thermostat-1`. -/
theorem ProfileScan_decision_witness :
    ProfileScan (sampleWorldAt 7) (sampleRequest 4) true =
      { reply := .sendEdgexError
          (NewCommonEdgeX .KindStatusConflict
            "Another profile scan process for thermostat-1 is currently running" none)
          ApiProfileScan,
        spawned := some (.profileScan "corr-1" { label := "driver" }
          { DeviceName := "thermostat-1", ProfileName := "fresh-profile",
            Options := .string "fast",
            Protocols := [("modbus-tcp", [("Address", "10.0.0.7")])] }) } ∧
    ProfileScan (sampleWorldAt 7) (sampleRequest 4) false =
      { reply := .sendResponse ApiProfileScan
          (NewBaseResponse "" "Trigger profile scan with correlationId corr-1" 202) 202,
        spawned := some (.profileScan "corr-1" { label := "driver" }
          { DeviceName := "thermostat-1", ProfileName := "fresh-profile",
            Options := .string "fast",
            Protocols := [("modbus-tcp", [("Address", "10.0.0.7")])] }) } :=
  ⟨(ProfileScan_decision (sampleWorldAt 7) (sampleRequest 4) (List.replicate 4 0)
      { label := "driver" }
      { DeviceName := "thermostat-1", ProfileName := "fresh-profile", Options := .string "fast",
        Protocols := [("modbus-tcp", [("Address", "10.0.0.7")])] }
      rfl rfl rfl).1,
   (ProfileScan_decision (sampleWorldAt 7) (sampleRequest 4) (List.replicate 4 0)
      { label := "driver" }
      { DeviceName := "thermostat-1", ProfileName := "fresh-profile", Options := .string "fast",
        Protocols := [("modbus-tcp", [("Address", "10.0.0.7")])] }
      rfl rfl rfl).2.1⟩

/-! ## The decimal rendering loses nothing -/

theorem digitChar_toNat (d : Nat) (h : d < 10) : (Nat.digitChar d).toNat - 48 = d := by
  interval_cases d <;> rfl

theorem digitChar_isDigit (d : Nat) (h : d < 10) : (Nat.digitChar d).isDigit = true := by
  interval_cases d <;> rfl

theorem decVal_toDigitsCore (fuel : Nat) : ∀ (n : Nat) (ds : List Char), n < fuel →
    decVal 0 (Nat.toDigitsCore 10 fuel n ds) = decVal n ds := by
  induction fuel with
  | zero => intro n ds h; omega
  | succ fuel ih =>
    intro n ds h
    have hd : n % 10 < 10 := Nat.mod_lt _ (by decide)
    simp only [Nat.toDigitsCore]
    split
    · rename_i h0
      have hv : (Nat.digitChar (n % 10)).toNat - 48 = n := by
        rw [digitChar_toNat _ hd]
        omega
      simp only [decVal, List.foldl_cons, hv, Nat.mul_zero, Nat.zero_add]
    · rename_i h0
      rw [ih (n / 10) _ (by omega)]
      simp only [decVal, List.foldl_cons, digitChar_toNat _ hd]
      congr 1
      omega

theorem isDigit_toDigitsCore (fuel : Nat) : ∀ (n : Nat) (ds : List Char),
    (∀ c ∈ ds, c.isDigit = true) → ∀ c ∈ Nat.toDigitsCore 10 fuel n ds, c.isDigit = true := by
  induction fuel with
  | zero => intro n ds h; simpa [Nat.toDigitsCore] using h
  | succ fuel ih =>
    intro n ds h
    have hd : n % 10 < 10 := Nat.mod_lt _ (by decide)
    have hcons : ∀ c ∈ Nat.digitChar (n % 10) :: ds, c.isDigit = true := by
      intro c hc
      rcases List.mem_cons.1 hc with rfl | hc
      · exact digitChar_isDigit _ hd
      · exact h c hc
    simp only [Nat.toDigitsCore]
    split
    · exact hcons
    · exact ih _ _ hcons

theorem decVal_repr (n : Nat) : decVal 0 (Nat.repr n).data = n := by
  have h := decVal_toDigitsCore (n + 1) n [] (Nat.lt_succ_self n)
  simpa [Nat.repr, Nat.toDigits, List.asString, decVal] using h

theorem isDigit_repr (n : Nat) : ∀ c ∈ (Nat.repr n).data, c.isDigit = true := by
  simp only [Nat.repr, Nat.toDigits, List.asString]
  exact isDigit_toDigitsCore _ n [] (by simp)

theorem parseInt_of_digits (cs : List Char) (h : ∀ c ∈ cs, c.isDigit = true) :
    parseInt cs = ((decVal 0 cs : Nat) : Int) := by
  cases cs with
  | nil => rfl
  | cons c rest =>
    have hc : c ≠ '-' := by
      intro hc
      have := h c (by simp)
      rw [hc] at this
      exact absurd this (by decide)
    unfold parseInt
    split
    · rename_i heq
      simp at heq
      exact absurd heq.1 hc
    · rfl

theorem parseInt_formatInt (i : Int) : parseInt (formatInt i).data = i := by
  cases i with
  | ofNat n =>
    simp only [formatInt]
    rw [parseInt_of_digits _ (isDigit_repr n), decVal_repr]
    rfl
  | negSucc n =>
    have : (formatInt (Int.negSucc n)).data = '-' :: (Nat.repr (n + 1)).data := by
      simp [formatInt, String.data_append]
    rw [this]
    simp only [parseInt, decVal_repr]
    rfl

theorem formatInt_injective : Function.Injective formatInt := by
  intro a b h
  have := congrArg (fun s => parseInt s.data) h
  simpa [parseInt_formatInt] using this

theorem synthesizedProfileName_same_device (d : String) (t1 t2 : Int) :
    synthesizedProfileName d t1 = synthesizedProfileName d t2 ↔ t1 = t2 := by
  constructor
  · intro h
    have hdata := congrArg String.data h
    simp only [synthesizedProfileName, String.data_append] at hdata
    have h2 := List.append_cancel_left hdata
    exact formatInt_injective (String.ext h2)
  · intro h
    rw [h]

/-! ## Synthesized and supplied profile names -/

/-- C4, the claim as stated fails for a synthesized name: with the clock at 42 ns and a profile
called `thermostat-1_profile_42` already in the registry, a request for `thermostat-1` with no
ProfileName passes validation and is given exactly that existing name. -/
theorem synthesized_name_can_collide :
    (profileScanValidation (List.replicate 1 0) (sampleWorldAt 42)).2 = none ∧
    (profileScanValidation (List.replicate 1 0) (sampleWorldAt 42)).1.ProfileName
      = "thermostat-1_profile_42" ∧
    ((sampleWorldAt 42).ProfilesForName
      (profileScanValidation (List.replicate 1 0) (sampleWorldAt 42)).1.ProfileName).isSome
      = true := by
  refine ⟨rfl, ?_, ?_⟩ <;> decide

/-- What a successful validation tells about its inputs: the service is not Locked, the
payload decoded, the device is known, and the returned request is assembled from the payload
and the device, with the supplied name when there is one (then unknown to the profile
registry) and the synthesized one otherwise. -/
theorem profileScanValidation_ok_inv (w : World) (body : List UInt8) (r : ProfileScanRequest)
    (hv : profileScanValidation body w = (r, none)) :
    w.AdminState ≠ Locked ∧
    ∃ req device, w.UnmarshalJSON body = .ok req ∧
      w.DevicesForName req.DeviceName = some device ∧
      r.DeviceName = req.DeviceName ∧ r.Options = req.Options ∧
      r.Protocols = device.Protocols ∧
      (req.ProfileName ≠ "" →
        r.ProfileName = req.ProfileName ∧ w.ProfilesForName req.ProfileName = none) ∧
      (req.ProfileName = "" →
        r.ProfileName = synthesizedProfileName req.DeviceName w.UnixNano) := by
  by_cases hl : w.AdminState = Locked
  · simp [profileScanValidation, hl] at hv
  · refine ⟨hl, ?_⟩
    cases hu : w.UnmarshalJSON body with
    | error err => simp [profileScanValidation, hl, hu] at hv
    | ok req =>
      cases hd : w.DevicesForName req.DeviceName with
      | none => simp [profileScanValidation, hl, hu, hd] at hv
      | some device =>
        refine ⟨req, device, rfl, hd, ?_⟩
        by_cases hn : req.ProfileName = ""
        · simp [profileScanValidation, hl, hu, hd, hn] at hv
          subst hv
          simp [hn]
        · cases hp : w.ProfilesForName req.ProfileName with
          | some profile => simp [profileScanValidation, hl, hu, hd, hn, hp] at hv
          | none =>
            simp [profileScanValidation, hl, hu, hd, hn, hp] at hv
            subst hv
            simp [hn, hp]

/-- C4, amended: when `profileScanValidation` succeeds, the payload decoded to some `req`; if
`req.ProfileName` is non-empty (supplied by the caller) the returned ProfileName is that name
and no profile of that name is in the registry; if it is empty the returned ProfileName is
the synthesized `<DeviceName>_profile_<UnixNano>`, which is not looked up. -/
theorem supplied_name_no_collision (w : World) (body : List UInt8) (r : ProfileScanRequest)
    (hv : profileScanValidation body w = (r, none)) :
    ∃ req, w.UnmarshalJSON body = .ok req ∧
      (req.ProfileName ≠ "" →
        r.ProfileName = req.ProfileName ∧ w.ProfilesForName r.ProfileName = none) ∧
      (req.ProfileName = "" →
        r.ProfileName = synthesizedProfileName req.DeviceName w.UnixNano) := by
  obtain ⟨_, req, device, hu, _, _, _, _, hsup, hsyn⟩ := profileScanValidation_ok_inv w body r hv
  refine ⟨req, hu, ?_, hsyn⟩
  intro hn
  obtain ⟨h1, h2⟩ := hsup hn
  exact ⟨h1, by rw [h1]; exact h2⟩

/-- C4, the amended statement at a concrete request that supplies `fresh-profile`. -/
theorem supplied_name_no_collision_witness :
    ∃ req, (sampleWorldAt 42).UnmarshalJSON (List.replicate 4 0) = .ok req ∧
      (req.ProfileName ≠ "" →
        "fresh-profile" = req.ProfileName ∧
          (sampleWorldAt 42).ProfilesForName "fresh-profile" = none) ∧
      (req.ProfileName = "" →
        "fresh-profile" = synthesizedProfileName req.DeviceName (sampleWorldAt 42).UnixNano) :=
  supplied_name_no_collision (sampleWorldAt 42) (List.replicate 4 0)
    { DeviceName := "thermostat-1", ProfileName := "fresh-profile", Options := .string "fast",
      Protocols := [("modbus-tcp", [("Address", "10.0.0.7")])] }
    rfl

/-- C5, the claim as stated fails when the clock does not advance between the two calls: two
requests for `thermostat-1` with no ProfileName, validated in succession while
`time.Now().UnixNano()` reads 7 both times, both pass and both get
`thermostat-1_profile_7`. -/
theorem successive_names_can_coincide :
    (validateTwice (sampleWorldAt 0) 7 7 (List.replicate 1 0) (List.replicate 1 0)).1.2 = none ∧
    (validateTwice (sampleWorldAt 0) 7 7 (List.replicate 1 0) (List.replicate 1 0)).2.2 = none ∧
    (validateTwice (sampleWorldAt 0) 7 7 (List.replicate 1 0)
      (List.replicate 1 0)).1.1.ProfileName = "thermostat-1_profile_7" ∧
    (validateTwice (sampleWorldAt 0) 7 7 (List.replicate 1 0)
      (List.replicate 1 0)).2.1.ProfileName = "thermostat-1_profile_7" := by
  refine ⟨rfl, rfl, ?_, ?_⟩ <;> decide

/-- C5, amended: two requests for the same device with an empty ProfileName, validated one
right after the other and both admitted, get distinct synthesized names exactly when the two
readings of `time.Now().UnixNano()` differ. -/
theorem successive_names_distinct_iff (w : World) (t1 t2 : Int) (body1 body2 : List UInt8)
    (req1 req2 : ProfileScanRequestDTO) (r1 r2 : ProfileScanRequest)
    (hu1 : w.UnmarshalJSON body1 = .ok req1) (hu2 : w.UnmarshalJSON body2 = .ok req2)
    (hsame : req1.DeviceName = req2.DeviceName)
    (he1 : req1.ProfileName = "") (he2 : req2.ProfileName = "")
    (hv : validateTwice w t1 t2 body1 body2 = ((r1, none), (r2, none))) :
    r1.ProfileName = synthesizedProfileName req1.DeviceName t1 ∧
    r2.ProfileName = synthesizedProfileName req1.DeviceName t2 ∧
    (r1.ProfileName ≠ r2.ProfileName ↔ t1 ≠ t2) := by
  have hv1 : profileScanValidation body1 { w with UnixNano := t1 } = (r1, none) :=
    congrArg Prod.fst hv
  have hv2 : profileScanValidation body2 { w with UnixNano := t2 } = (r2, none) :=
    congrArg Prod.snd hv
  obtain ⟨_, q1, _, hq1, _, _, _, _, _, hs1⟩ :=
    profileScanValidation_ok_inv { w with UnixNano := t1 } body1 r1 hv1
  obtain ⟨_, q2, _, hq2, _, _, _, _, _, hs2⟩ :=
    profileScanValidation_ok_inv { w with UnixNano := t2 } body2 r2 hv2
  simp only [hu1, Except.ok.injEq] at hq1
  simp only [hu2, Except.ok.injEq] at hq2
  subst hq1 hq2
  have n1 := hs1 he1
  have n2 := hs2 he2
  simp only at n1 n2
  rw [← hsame] at n2
  refine ⟨n1, n2, ?_⟩
  rw [n1, n2, Ne, synthesizedProfileName_same_device]

/-- C5, the amended statement at two requests for `thermostat-1` validated at 7 ns and at
8 ns. -/
theorem successive_names_distinct_iff_witness :
    "thermostat-1_profile_7" = synthesizedProfileName "thermostat-1" 7 ∧
    "thermostat-1_profile_8" = synthesizedProfileName "thermostat-1" 8 ∧
    ("thermostat-1_profile_7" ≠ "thermostat-1_profile_8" ↔ (7 : Int) ≠ 8) :=
  successive_names_distinct_iff (sampleWorldAt 0) 7 8 (List.replicate 1 0) (List.replicate 1 0)
    { DeviceName := "thermostat-1", ProfileName := "", Options := .null }
    { DeviceName := "thermostat-1", ProfileName := "", Options := .null }
    { DeviceName := "thermostat-1", ProfileName := "thermostat-1_profile_7", Options := .null,
      Protocols := [("modbus-tcp", [("Address", "10.0.0.7")])] }
    { DeviceName := "thermostat-1", ProfileName := "thermostat-1_profile_8", Options := .null,
      Protocols := [("modbus-tcp", [("Address", "10.0.0.7")])] }
    rfl rfl rfl rfl rfl rfl

/-! ## The NaN gate -/

theorem IsNaN_eq_isNaNPattern (f : float64) : IsNaN f = f.isNaNPattern := by
  cases h : f.isNaNPattern <;> simp [IsNaN, float64.goNe, float64.goEq, h]

theorem log2_fraction_lt (f : Nat) (h0 : f ≠ 0) (h : f < 2 ^ 23) : Nat.log2 f < 23 :=
  (Nat.log2_lt h0).2 h

theorem ofFloat32_exponent (v : float32) :
    (float64.ofFloat32 v).exponent.val = 2047 ↔ v.exponent.val = 255 := by
  obtain ⟨s, ⟨e, he⟩, ⟨f, hf⟩⟩ := v
  unfold float64.ofFloat32
  dsimp only
  by_cases h255 : e = 255
  · rw [if_pos h255]
    by_cases hf0 : f = 0
    · rw [if_pos hf0]
      simp [h255]
    · rw [if_neg hf0]
      simp [h255]
  · rw [if_neg h255]
    by_cases he0 : e = 0
    · rw [if_pos he0]
      by_cases hf0 : f = 0
      · rw [if_pos hf0]
        simp [he0]
      · rw [if_neg hf0]
        have hk := log2_fraction_lt f hf0 hf
        simp only [h255, iff_false]
        omega
    · rw [if_neg he0]
      simp only [h255, iff_false]
      omega

theorem ofFloat32_fraction (v : float32) (h : v.exponent.val = 255) :
    (float64.ofFloat32 v).fraction.val = 0 ↔ v.fraction.val = 0 := by
  obtain ⟨s, ⟨e, he⟩, ⟨f, hf⟩⟩ := v
  simp only at h
  unfold float64.ofFloat32
  dsimp only
  rw [if_pos h]
  split_ifs with hf0 h22
  · simp [hf0]
  · simp only [hf0, iff_false]
    omega
  · simp only [hf0, iff_false]
    omega

theorem ofFloat32_isNaNPattern (v : float32) :
    (float64.ofFloat32 v).isNaNPattern = v.isNaNPattern := by
  rw [Bool.eq_iff_iff]
  simp only [float64.isNaNPattern, float32.isNaNPattern, Bool.and_eq_true, beq_iff_eq,
    bne_iff_ne, ne_eq]
  constructor
  · rintro ⟨h1, h2⟩
    have h := (ofFloat32_exponent v).1 h1
    exact ⟨h, fun h0 => h2 ((ofFloat32_fraction v h).2 h0)⟩
  · rintro ⟨h1, h2⟩
    exact ⟨(ofFloat32_exponent v).2 h1, fun h0 => h2 ((ofFloat32_fraction v h1).1 h0)⟩

theorem ofFloat32_isInfPattern (v : float32) :
    (float64.ofFloat32 v).isInfPattern = v.isInfPattern := by
  rw [Bool.eq_iff_iff]
  simp only [float64.isInfPattern, float32.isInfPattern, Bool.and_eq_true, beq_iff_eq]
  constructor
  · rintro ⟨h1, h2⟩
    have h := (ofFloat32_exponent v).1 h1
    exact ⟨h, (ofFloat32_fraction v h).1 h2⟩
  · rintro ⟨h1, h2⟩
    exact ⟨(ofFloat32_exponent v).2 h1, (ofFloat32_fraction v h1).2 h2⟩

theorem isNaN_float32_ok (D : Decoders) (cv : CommandValue) (v : float32)
    (ht : cv.ValueType = ValueTypeFloat32) (hd : D.Float32Value cv = .ok v) :
    isNaN D cv = (IsNaN (float64.ofFloat32 v), none) := by
  cases h : IsNaN (float64.ofFloat32 v) <;> simp [isNaN, ht, hd, h]

theorem isNaN_float64_ok (D : Decoders) (cv : CommandValue) (f : float64)
    (ht : cv.ValueType = ValueTypeFloat64) (hd : D.Float64Value cv = .ok f) :
    isNaN D cv = (IsNaN f, none) := by
  have hne : ValueTypeFloat64 ≠ ValueTypeFloat32 := by decide
  cases h : IsNaN f <;> simp [isNaN, ht, hd, h, hne]

/-- C2: for a Float32 reading that decodes to `v`, `isNaN` tests `math.IsNaN` on the widened
value `float64(v)` and returns `(true, nil)` exactly when `v` is a NaN pattern and
`(false, nil)` otherwise; for a Float64 reading that decodes to `f` it returns `(true, nil)`
exactly when `f` is a NaN pattern and `(false, nil)` otherwise, in particular for both
infinities and for every finite value. Widening keeps NaN, infinity and finiteness as they
are. -/
theorem isNaN_gate (D : Decoders) (cv : CommandValue) :
    (∀ v, cv.ValueType = ValueTypeFloat32 → D.Float32Value cv = .ok v →
      isNaN D cv = (IsNaN (float64.ofFloat32 v), none) ∧
      (isNaN D cv = (true, none) ↔ v.isNaNPattern = true) ∧
      (v.isNaNPattern = false → isNaN D cv = (false, none)) ∧
      (v.isInfPattern = true → isNaN D cv = (false, none)) ∧
      (v.isFinitePattern = true → isNaN D cv = (false, none))) ∧
    (∀ f, cv.ValueType = ValueTypeFloat64 → D.Float64Value cv = .ok f →
      isNaN D cv = (IsNaN f, none) ∧
      (isNaN D cv = (true, none) ↔ f.isNaNPattern = true) ∧
      (f.isNaNPattern = false → isNaN D cv = (false, none)) ∧
      (f.isInfPattern = true → isNaN D cv = (false, none)) ∧
      (f.isFinitePattern = true → isNaN D cv = (false, none))) ∧
    (∀ v : float32, (float64.ofFloat32 v).isNaNPattern = v.isNaNPattern ∧
      (float64.ofFloat32 v).isInfPattern = v.isInfPattern ∧
      IsNaN (float64.ofFloat32 v) = v.isNaNPattern) := by
  refine ⟨?_, ?_, ?_⟩
  · intro v ht hd
    have hr := isNaN_float32_ok D cv v ht hd
    have hp : IsNaN (float64.ofFloat32 v) = v.isNaNPattern := by
      rw [IsNaN_eq_isNaNPattern, ofFloat32_isNaNPattern]
    rw [hr, hp]
    refine ⟨rfl, ?_, ?_, ?_, ?_⟩
    · simp
    · intro h
      rw [h]
    · intro h
      have : v.isNaNPattern = false := by
        simp only [float32.isInfPattern, Bool.and_eq_true, beq_iff_eq] at h
        simp [float32.isNaNPattern, h.2]
      rw [this]
    · intro h
      have : v.isNaNPattern = false := by
        simp only [float32.isFinitePattern, bne_iff_ne, ne_eq] at h
        simp [float32.isNaNPattern, h]
      rw [this]
  · intro f ht hd
    have hr := isNaN_float64_ok D cv f ht hd
    rw [hr, IsNaN_eq_isNaNPattern]
    refine ⟨rfl, ?_, ?_, ?_, ?_⟩
    · simp
    · intro h
      rw [h]
    · intro h
      have : f.isNaNPattern = false := by
        simp only [float64.isInfPattern, Bool.and_eq_true, beq_iff_eq] at h
        simp [float64.isNaNPattern, h.2]
      rw [this]
    · intro h
      have : f.isNaNPattern = false := by
        simp only [float64.isFinitePattern, bne_iff_ne, ne_eq] at h
        simp [float64.isNaNPattern, h]
      rw [this]
  · intro v
    refine ⟨ofFloat32_isNaNPattern v, ofFloat32_isInfPattern v, ?_⟩
    rw [IsNaN_eq_isNaNPattern, ofFloat32_isNaNPattern]

/-- C2 at concrete readings: a Float32 reading carrying a quiet NaN is reported `(true, nil)`,
a Float64 reading carrying positive infinity is reported `(false, nil)`. -/
theorem isNaN_gate_witness :
    isNaN assertingDecoders nanReading32 = (true, none) ∧
    isNaN assertingDecoders infReading64 = (false, none) :=
  ⟨((isNaN_gate assertingDecoders nanReading32).1 quietNaN32 rfl rfl).2.1.2 rfl,
   ((isNaN_gate assertingDecoders infReading64).2.1 posInf64 rfl rfl).2.2.2.1 rfl⟩

/-- C7: a reading whose kind is neither Float32 nor Float64 is reported `(false, nil)` whatever
value it carries and whatever the two decoders would do with it: no decoder is consulted, so
no error can arise. -/
theorem isNaN_non_float (cv : CommandValue) (h32 : cv.ValueType ≠ ValueTypeFloat32)
    (h64 : cv.ValueType ≠ ValueTypeFloat64) :
    ∀ D : Decoders, isNaN D cv = (false, none) := by
  intro D
  simp [isNaN, h32, h64]

/-- C7 at a concrete reading of kind Int64 carrying text, which both decoders reject. -/
theorem isNaN_non_float_witness :
    assertingDecoders.Float32Value textReadingInt64 =
      .error (NewCommonEdgeX .KindServerError "cannot convert CommandValue to Float32" none) ∧
    assertingDecoders.Float64Value textReadingInt64 =
      .error (NewCommonEdgeX .KindServerError "cannot convert CommandValue to Float64" none) ∧
    isNaN assertingDecoders textReadingInt64 = (false, none) :=
  ⟨rfl, rfl, isNaN_non_float textReadingInt64 (by decide) (by decide) assertingDecoders⟩

/-- C8: `isNaN` returns a non-nil error exactly when the kind is Float32 and `Float32Value`
fails, or the kind is Float64 and `Float64Value` fails. The error is then the wrapper of the
decoder error (same kind, the decoder error kept as the wrapped error) and the boolean is
false, so a reading that does not decode is never reported as NaN. -/
theorem isNaN_error_iff (D : Decoders) (cv : CommandValue) :
    ((isNaN D cv).2 ≠ none ↔
      ((cv.ValueType = ValueTypeFloat32 ∧ ∃ err, D.Float32Value cv = .error err) ∨
       (cv.ValueType = ValueTypeFloat64 ∧ ∃ err, D.Float64Value cv = .error err))) ∧
    (∀ err, cv.ValueType = ValueTypeFloat32 → D.Float32Value cv = .error err →
      isNaN D cv = (false, some (GoError.CommonEdgeX (Kind err) "" (some err)))) ∧
    (∀ err, cv.ValueType = ValueTypeFloat64 → D.Float64Value cv = .error err →
      isNaN D cv = (false, some (GoError.CommonEdgeX (Kind err) "" (some err)))) ∧
    ((isNaN D cv).2 ≠ none → (isNaN D cv).1 = false) := by
  have hne : ValueTypeFloat64 ≠ ValueTypeFloat32 := by decide
  refine ⟨?_, ?_, ?_, ?_⟩
  · by_cases h32 : cv.ValueType = ValueTypeFloat32
    · have h64 : cv.ValueType ≠ ValueTypeFloat64 := by
        rw [h32]
        exact fun h => hne h.symm
      cases hd : D.Float32Value cv with
      | error err => simp [isNaN, h32, hd]
      | ok v =>
        cases hv : IsNaN (float64.ofFloat32 v) <;> simp [isNaN, h32, hd, hv, hne.symm]
    · by_cases h64 : cv.ValueType = ValueTypeFloat64
      · cases hd : D.Float64Value cv with
        | error err => simp [isNaN, h64, hd, hne]
        | ok f =>
          cases hv : IsNaN f <;> simp [isNaN, h64, hd, hv, hne]
      · simp [isNaN, h32, h64]
  · intro err ht hd
    simp [isNaN, ht, hd, NewCommonEdgeXWrapper]
  · intro err ht hd
    simp [isNaN, ht, hd, hne, NewCommonEdgeXWrapper]
  · intro h
    by_cases h32 : cv.ValueType = ValueTypeFloat32
    · cases hd : D.Float32Value cv with
      | error err => simp [isNaN, h32, hd]
      | ok v =>
        cases hv : IsNaN (float64.ofFloat32 v) <;> simp [isNaN, h32, hd, hv] at h ⊢
    · by_cases h64 : cv.ValueType = ValueTypeFloat64
      · cases hd : D.Float64Value cv with
        | error err => simp [isNaN, h64, hd, hne]
        | ok f =>
          cases hv : IsNaN f <;> simp [isNaN, h64, hd, hv, hne] at h ⊢
      · simp [isNaN, h32, h64]

/-- C8 at a concrete Float64 reading that carries text: the decoder fails with a server error
and `isNaN` returns `false` with the wrapper of that error. -/
theorem isNaN_error_iff_witness :
    isNaN assertingDecoders textReadingFloat64 =
      (false, some (GoError.CommonEdgeX .KindServerError ""
        (some (NewCommonEdgeX .KindServerError "failed to transfrom value to float64" none)))) :=
  (isNaN_error_iff assertingDecoders textReadingFloat64).2.2.1
    (NewCommonEdgeX .KindServerError "failed to transfrom value to float64" none) rfl rfl

/-! ## Driver presence, the resolved request and the body read -/

/-- C11, the claim as stated fails: with no profile-scan driver registered the trigger rejects
with kind NotImplemented, which is not ServiceUnavailable. -/
theorem missing_driver_not_service_unavailable :
    (sampleWorld Unlocked true none).ProfileScanFrom = none ∧
    (ProfileScan (sampleWorld Unlocked true none) (sampleRequest 1) false).reply.rejectedKind
      = some ErrKind.KindNotImplemented ∧
    (ProfileScan (sampleWorld Unlocked true none) (sampleRequest 1) false).reply.rejectedKind
      ≠ some ErrKind.KindServiceUnavailable := by
  refine ⟨rfl, rfl, ?_⟩
  decide

/-- C11, amended: when no profile-scan driver is registered and the request body was read,
`ProfileScan` rejects with kind NotImplemented and the message "Profile scan is not
implemented", launching nothing, whatever the lock state, the payload, the registries and the
busy value are. -/
theorem missing_driver_not_implemented (w : World) (request : HttpRequest) (body : List UInt8)
    (hbody : request.ReadAll = .ok body) (hps : w.ProfileScanFrom = none) :
    ∀ b, ProfileScan w request b =
      { reply := .sendEdgexError
          (NewCommonEdgeX .KindNotImplemented "Profile scan is not implemented" none)
          ApiProfileScan,
        spawned := none } := by
  intro b
  simp [ProfileScan, hbody, hps]

/-- C11, the amended statement at a concrete unlocked world without a driver. -/
theorem missing_driver_not_implemented_witness :
    ProfileScan (sampleWorld Unlocked true none) (sampleRequest 4) false =
      { reply := .sendEdgexError
          (NewCommonEdgeX .KindNotImplemented "Profile scan is not implemented" none)
          ApiProfileScan,
        spawned := none } :=
  missing_driver_not_implemented (sampleWorld Unlocked true none) (sampleRequest 4)
    (List.replicate 4 0) rfl rfl false

/-- C12: when `profileScanValidation` succeeds, the payload decoded to some `req`, the device
registry holds some `device` under `req.DeviceName`, and the returned request has the
DeviceName and Options of `req`, the Protocols of `device`, and, when `req.ProfileName` is
non-empty, that ProfileName unchanged. -/
theorem resolved_request (w : World) (body : List UInt8) (r : ProfileScanRequest)
    (hv : profileScanValidation body w = (r, none)) :
    ∃ req device, w.UnmarshalJSON body = .ok req ∧
      w.DevicesForName req.DeviceName = some device ∧
      r.DeviceName = req.DeviceName ∧
      r.Options = req.Options ∧
      r.Protocols = device.Protocols ∧
      (req.ProfileName ≠ "" → r.ProfileName = req.ProfileName) := by
  obtain ⟨_, req, device, hu, hd, h1, h2, h3, hsup, _⟩ := profileScanValidation_ok_inv w body r hv
  exact ⟨req, device, hu, hd, h1, h2, h3, fun hn => (hsup hn).1⟩

/-- C12 at a concrete request for `thermostat-1` that supplies `fresh-profile` and the option
`fast`: the protocols are those of the registered device. -/
theorem resolved_request_witness :
    ∃ req device, (sampleWorldAt 7).UnmarshalJSON (List.replicate 4 0) = .ok req ∧
      (sampleWorldAt 7).DevicesForName req.DeviceName = some device ∧
      "thermostat-1" = req.DeviceName ∧
      GoAny.string "fast" = req.Options ∧
      [("modbus-tcp", [("Address", "10.0.0.7")])] = device.Protocols ∧
      (req.ProfileName ≠ "" → "fresh-profile" = req.ProfileName) :=
  resolved_request (sampleWorldAt 7) (List.replicate 4 0)
    { DeviceName := "thermostat-1", ProfileName := "fresh-profile", Options := .string "fast",
      Protocols := [("modbus-tcp", [("Address", "10.0.0.7")])] }
    rfl

/-- The kind of a validation error is never ServerError. -/
theorem profileScanValidation_kind_ne_ServerError (w : World) (body : List UInt8)
    (r : ProfileScanRequest) (e : GoError) (hv : profileScanValidation body w = (r, some e)) :
    Kind e ≠ .KindServerError := by
  by_cases hl : w.AdminState = Locked
  · simp [profileScanValidation, hl] at hv
    rw [← hv.2]
    simp [NewCommonEdgeX, Kind]
  · cases hu : w.UnmarshalJSON body with
    | error err =>
      simp [profileScanValidation, hl, hu] at hv
      rw [← hv.2]
      simp [NewCommonEdgeX, Kind]
    | ok req =>
      cases hd : w.DevicesForName req.DeviceName with
      | none =>
        simp [profileScanValidation, hl, hu, hd] at hv
        rw [← hv.2]
        simp [NewCommonEdgeX, Kind]
      | some device =>
        by_cases hn : req.ProfileName = ""
        · simp [profileScanValidation, hl, hu, hd, hn] at hv
        · cases hp : w.ProfilesForName req.ProfileName with
          | none => simp [profileScanValidation, hl, hu, hd, hn, hp] at hv
          | some profile =>
            simp [profileScanValidation, hl, hu, hd, hn, hp] at hv
            rw [← hv.2]
            simp [NewCommonEdgeX, Kind]

/-- C14: if reading the body fails with `err`, `ProfileScan` answers ServerError "Failed to
read request body" wrapping `err` and launches nothing, and this answer is the same for every
container, registry, clock, decoder and busy value, so no further check is consulted. If the
body is read, the answer is never of kind ServerError. -/
theorem body_read_failure (request : HttpRequest) :
    (∀ err, request.ReadAll = .error err → ∀ (w : World) (b : Bool),
      ProfileScan w request b =
        { reply := .sendEdgexError
            (NewCommonEdgeX .KindServerError "Failed to read request body" (some err))
            ApiProfileScan,
          spawned := none }) ∧
    (∀ body, request.ReadAll = .ok body → ∀ (w : World) (b : Bool),
      (ProfileScan w request b).reply.rejectedKind ≠ some .KindServerError) := by
  refine ⟨?_, ?_⟩
  · intro err hr w b
    simp [ProfileScan, hr]
  · intro body hr w b
    cases hps : w.ProfileScanFrom with
    | none => simp [ProfileScan, hr, hps, HttpReply.rejectedKind, NewCommonEdgeX, Kind]
    | some ps =>
      rcases hv : profileScanValidation body w with ⟨r, _ | e⟩
      · cases b <;>
          simp [ProfileScan, hr, hps, hv, HttpReply.rejectedKind, NewCommonEdgeX, Kind]
      · have hk := profileScanValidation_kind_ne_ServerError w body r e hv
        simp [ProfileScan, hr, hps, hv, HttpReply.rejectedKind, hk]

/-- C14 at a concrete unreadable request, in a world where every later check would pass. -/
theorem body_read_failure_witness :
    ProfileScan (sampleWorldAt 7) brokenRequest false =
      { reply := .sendEdgexError
          (NewCommonEdgeX .KindServerError "Failed to read request body"
            (some (.errorString "unexpected EOF")))
          ApiProfileScan,
        spawned := none } :=
  (body_read_failure brokenRequest).1 (.errorString "unexpected EOF") rfl (sampleWorldAt 7) false

/-! ## Synthesized names determine the device and the timestamp -/

theorem formatInt_data_ne_underscore (t : Int) : ∀ c ∈ (formatInt t).data, c ≠ '_' := by
  have hdigit : ∀ c : Char, c.isDigit = true → c ≠ '_' := by
    intro c hc h
    rw [h] at hc
    exact absurd hc (by decide)
  cases t with
  | ofNat n =>
    intro c hc
    exact hdigit c (isDigit_repr n c hc)
  | negSucc n =>
    intro c hc
    have hdata : (formatInt (Int.negSucc n)).data = '-' :: (Nat.repr (n + 1)).data := by
      simp [formatInt, String.data_append]
    rw [hdata] at hc
    rcases List.mem_cons.1 hc with rfl | hc
    · decide
    · exact hdigit c (isDigit_repr (n + 1) c hc)

theorem append_underscore_cancel : ∀ (p q r s : List Char),
    (∀ c ∈ p, c ≠ '_') → (∀ c ∈ q, c ≠ '_') →
    p ++ '_' :: r = q ++ '_' :: s → p = q ∧ r = s := by
  intro p
  induction p with
  | nil =>
    intro q r s _ hq h
    cases q with
    | nil =>
      simp only [List.nil_append, List.cons.injEq, true_and] at h
      exact ⟨rfl, h⟩
    | cons c q =>
      simp only [List.nil_append, List.cons_append, List.cons.injEq] at h
      exact absurd h.1.symm (hq c (by simp))
  | cons a p ih =>
    intro q r s hp hq h
    cases q with
    | nil =>
      simp only [List.nil_append, List.cons_append, List.cons.injEq] at h
      exact absurd h.1 (hp a (by simp))
    | cons c q =>
      simp only [List.cons_append, List.cons.injEq] at h
      obtain ⟨hac, hrest⟩ := h
      obtain ⟨hpq, hrs⟩ := ih q r s (fun x hx => hp x (List.mem_cons_of_mem _ hx))
        (fun x hx => hq x (List.mem_cons_of_mem _ hx)) hrest
      exact ⟨by rw [hac, hpq], hrs⟩

theorem synthesizedProfileName_inj (d1 d2 : String) (t1 t2 : Int)
    (h : synthesizedProfileName d1 t1 = synthesizedProfileName d2 t2) : d1 = d2 ∧ t1 = t2 := by
  have hsep : ("_profile_" : String).data = ['_', 'p', 'r', 'o', 'f', 'i', 'l', 'e', '_'] := rfl
  have hdata := congrArg (fun x : String => x.data.reverse) h
  simp only [synthesizedProfileName, String.data_append, hsep, List.reverse_append,
    List.reverse_cons, List.reverse_nil, List.nil_append, List.cons_append,
    List.append_assoc] at hdata
  obtain ⟨hx, hr⟩ := append_underscore_cancel _ _ _ _
    (fun c hc => formatInt_data_ne_underscore t1 c (List.mem_reverse.1 hc))
    (fun c hc => formatInt_data_ne_underscore t2 c (List.mem_reverse.1 hc)) hdata
  have ht : t1 = t2 := formatInt_injective (String.ext (List.reverse_injective hx))
  simp only [List.cons.injEq, true_and] at hr
  exact ⟨String.ext (List.reverse_injective hr), ht⟩

/-- C15: the synthesized ProfileName is the DeviceName, then `_profile_`, then the signed
decimal of the UnixNano reading (digits, with a leading minus sign for a negative reading, and
reading the text back gives the number). Two synthesized names are equal exactly when the
device names are equal and the readings are equal, whatever characters the device names
contain. -/
theorem synthesizedProfileName_injective :
    (∀ (w : World) (body : List UInt8) (r : ProfileScanRequest) (req : ProfileScanRequestDTO),
      profileScanValidation body w = (r, none) → w.UnmarshalJSON body = .ok req →
      req.ProfileName = "" →
      r.ProfileName = req.DeviceName ++ "_profile_" ++ formatInt w.UnixNano) ∧
    (∀ n : Nat, formatInt (n : Int) = Nat.repr n ∧
      formatInt (-((n : Int) + 1)) = "-" ++ Nat.repr (n + 1)) ∧
    (∀ t : Int, parseInt (formatInt t).data = t) ∧
    (∀ (d1 d2 : String) (t1 t2 : Int),
      synthesizedProfileName d1 t1 = synthesizedProfileName d2 t2 ↔ (d1 = d2 ∧ t1 = t2)) := by
  refine ⟨?_, ?_, parseInt_formatInt, ?_⟩
  · intro w body r req hv hu hn
    obtain ⟨_, q, _, hq, _, _, _, _, _, hsyn⟩ := profileScanValidation_ok_inv w body r hv
    rw [hu] at hq
    cases hq
    exact hsyn hn
  · intro n
    refine ⟨rfl, ?_⟩
    have : -((n : Int) + 1) = Int.negSucc n := (Int.negSucc_eq n).symm
    rw [this]
    rfl
  · intro d1 d2 t1 t2
    constructor
    · exact synthesizedProfileName_inj d1 d2 t1 t2
    · rintro ⟨rfl, rfl⟩
      rfl

/-- C15 at device names that contain `_profile_` or end in digits, and at a negative
reading. -/
theorem synthesizedProfileName_examples :
    synthesizedProfileName "pump_profile_1" 2 = "pump_profile_1_profile_2" ∧
    synthesizedProfileName "pump" 12 = "pump_profile_12" ∧
    synthesizedProfileName "pump1" 2 = "pump1_profile_2" ∧
    synthesizedProfileName "pump" (-5) = "pump_profile_-5" := by
  refine ⟨?_, ?_, ?_, ?_⟩ <;> decide

/-! ## Mutual exclusion of scans of one device -/

theorem isInterleaving_four (a b c d : GuardEvent) :
    isInterleaving [a, b, c, d] = true → [a, b, c, d] ∈ allInterleavings := by
  revert a b c d
  decide

theorem isInterleaving_mem (schedule : List GuardEvent) (h : isInterleaving schedule = true) :
    schedule ∈ allInterleavings := by
  have hlen : schedule.length = 4 := by
    simp only [isInterleaving, Bool.and_eq_true, beq_iff_eq] at h
    exact h.1.1.1.1.1.1
  match schedule, hlen, h with
  | [a, b, c, d], _, h => exact isInterleaving_four a b c d h

theorem ProfileScan_validated_answer (w : World) (request : HttpRequest) (body : List UInt8)
    (ps : ProfileScanDriver) (req : ProfileScanRequest)
    (hbody : request.ReadAll = .ok body) (hps : w.ProfileScanFrom = some ps)
    (hv : profileScanValidation body w = (req, none)) (b : Bool) :
    isAcceptedAnswer (some (ProfileScan w request b)) = !b ∧
    isConflictAnswer (some (ProfileScan w request b)) = b := by
  cases b <;>
    simp [isAcceptedAnswer, isConflictAnswer, ProfileScan, hbody, hps, hv, HttpReply.isAccepted,
      HttpReply.rejectedKind, NewCommonEdgeX, Kind]

theorem run_phases (d : String) (req1 req2 : ProfileScanRequest) (g0 : OperationGuard)
    (h1 : req1.DeviceName = d) (h2 : req2.DeviceName = d) (hfree : d ∉ g0.entries)
    (schedule : List GuardEvent) (hs : schedule ∈ allInterleavings) :
    ((ScanPair.run (pairTarget req1 req2) (ScanPair.start g0) schedule).first.busySignal,
     (ScanPair.run (pairTarget req1 req2) (ScanPair.start g0) schedule).second.busySignal) =
      if overlapping schedule then
        (if schedule.indexOf (.attempt .first) < schedule.indexOf (.attempt .second)
          then (some false, some true) else (some true, some false))
      else (some false, some false) := by
  simp only [allInterleavings, List.mem_cons, List.mem_singleton, List.not_mem_nil,
    or_false] at hs
  rcases hs with rfl | rfl | rfl | rfl | rfl | rfl <;>
    simp [ScanPair.run, ScanPair.step, ScanPair.start, ScanPair.phase, ScanPair.setPhase,
      OperationGuard.TryAcquire, OperationGuard.Release, pairTarget, h1, h2, hfree,
      UnitPhase.busySignal, overlapping, List.indexOf_cons]

/-- C13, the claim as stated fails when the device is already being scanned: two validated
requests for `thermostat-1` whose units both attempt before either ends, issued while a guard
entry for `thermostat-1` exists, both get Conflict and neither is Accepted. -/
theorem overlapping_pair_both_conflict_when_held :
    isInterleaving overlapSchedule = true ∧
    overlapping overlapSchedule = true ∧
    profileScanValidation (List.replicate 4 0) (sampleWorldAt 7) = (firstScan, none) ∧
    profileScanValidation (List.replicate 1 0) (sampleWorldAt 8) = (secondScan, none) ∧
    isConflictAnswer (triggerAnswer (sampleWorldAt 7) (sampleRequest 4)
      (ScanPair.run (pairTarget firstScan secondScan)
        (ScanPair.start { entries := ["thermostat-1"] }) overlapSchedule).first) = true ∧
    isConflictAnswer (triggerAnswer (sampleWorldAt 8) (sampleRequest 1)
      (ScanPair.run (pairTarget firstScan secondScan)
        (ScanPair.start { entries := ["thermostat-1"] }) overlapSchedule).second) = true ∧
    isAcceptedAnswer (triggerAnswer (sampleWorldAt 7) (sampleRequest 4)
      (ScanPair.run (pairTarget firstScan secondScan)
        (ScanPair.start { entries := ["thermostat-1"] }) overlapSchedule).first) = false ∧
    isAcceptedAnswer (triggerAnswer (sampleWorldAt 8) (sampleRequest 1)
      (ScanPair.run (pairTarget firstScan secondScan)
        (ScanPair.start { entries := ["thermostat-1"] }) overlapSchedule).second) = false := by
  refine ⟨by decide, by decide, rfl, rfl, ?_, ?_, ?_, ?_⟩ <;> rfl

/-- C13, amended: two scan requests for the same device name that both passed validation (body
read, driver registered, `profileScanValidation` without error), issued while no guard entry
exists for that device, under every interleaving of the attempts and ends of their two
background units. If the requests overlap (each unit attempts the acquisition before the other
ends) exactly one of the two triggers answers Accepted and the other answers Conflict; if they
do not overlap (one unit has released the guard before the other attempts) both answer
Accepted. -/
theorem scan_mutual_exclusion (w1 w2 : World) (request1 request2 : HttpRequest)
    (body1 body2 : List UInt8) (ps1 ps2 : ProfileScanDriver) (req1 req2 : ProfileScanRequest)
    (hb1 : request1.ReadAll = .ok body1) (hps1 : w1.ProfileScanFrom = some ps1)
    (hv1 : profileScanValidation body1 w1 = (req1, none))
    (hb2 : request2.ReadAll = .ok body2) (hps2 : w2.ProfileScanFrom = some ps2)
    (hv2 : profileScanValidation body2 w2 = (req2, none))
    (hsame : req1.DeviceName = req2.DeviceName)
    (g0 : OperationGuard) (hfree : req1.DeviceName ∉ g0.entries)
    (schedule : List GuardEvent) (hs : isInterleaving schedule = true) :
    (overlapping schedule = true →
      (isAcceptedAnswer (triggerAnswer w1 request1
          (ScanPair.run (pairTarget req1 req2) (ScanPair.start g0) schedule).first) = true ∧
        isConflictAnswer (triggerAnswer w2 request2
          (ScanPair.run (pairTarget req1 req2) (ScanPair.start g0) schedule).second) = true ∧
        isAcceptedAnswer (triggerAnswer w2 request2
          (ScanPair.run (pairTarget req1 req2) (ScanPair.start g0) schedule).second) = false) ∨
      (isAcceptedAnswer (triggerAnswer w2 request2
          (ScanPair.run (pairTarget req1 req2) (ScanPair.start g0) schedule).second) = true ∧
        isConflictAnswer (triggerAnswer w1 request1
          (ScanPair.run (pairTarget req1 req2) (ScanPair.start g0) schedule).first) = true ∧
        isAcceptedAnswer (triggerAnswer w1 request1
          (ScanPair.run (pairTarget req1 req2) (ScanPair.start g0) schedule).first) = false)) ∧
    (overlapping schedule = false →
      isAcceptedAnswer (triggerAnswer w1 request1
          (ScanPair.run (pairTarget req1 req2) (ScanPair.start g0) schedule).first) = true ∧
      isAcceptedAnswer (triggerAnswer w2 request2
          (ScanPair.run (pairTarget req1 req2) (ScanPair.start g0) schedule).second) = true) := by
  have hp := run_phases req1.DeviceName req1 req2 g0 rfl hsame.symm hfree schedule
    (isInterleaving_mem schedule hs)
  have a1 := ProfileScan_validated_answer w1 request1 body1 ps1 req1 hb1 hps1 hv1
  have a2 := ProfileScan_validated_answer w2 request2 body2 ps2 req2 hb2 hps2 hv2
  constructor
  · intro ho
    rw [ho] at hp
    by_cases hi : schedule.indexOf (GuardEvent.attempt Which.first)
        < schedule.indexOf (GuardEvent.attempt Which.second)
    · rw [if_pos rfl, if_pos hi] at hp
      have hp1 := congrArg Prod.fst hp
      have hp2 := congrArg Prod.snd hp
      simp only at hp1 hp2
      left
      simp only [triggerAnswer, hp1, hp2, Option.map_some']
      exact ⟨by rw [(a1 false).1]; rfl, by rw [(a2 true).2], by rw [(a2 true).1]; rfl⟩
    · rw [if_pos rfl, if_neg hi] at hp
      have hp1 := congrArg Prod.fst hp
      have hp2 := congrArg Prod.snd hp
      simp only at hp1 hp2
      right
      simp only [triggerAnswer, hp1, hp2, Option.map_some']
      exact ⟨by rw [(a2 false).1]; rfl, by rw [(a1 true).2], by rw [(a1 true).1]; rfl⟩
  · intro ho
    rw [ho] at hp
    have hp1 := congrArg Prod.fst hp
    have hp2 := congrArg Prod.snd hp
    simp only [Bool.false_eq_true, if_false] at hp1 hp2
    simp only [triggerAnswer, hp1, hp2, Option.map_some']
    exact ⟨by rw [(a1 false).1]; rfl, by rw [(a2 false).1]; rfl⟩

/-- C13, the amended statement at two requests for `thermostat-1` whose units both attempt
before either ends, with no guard entry at the start: exactly one of them is Accepted and the
other gets Conflict. -/
theorem scan_mutual_exclusion_witness :
    (isAcceptedAnswer (triggerAnswer (sampleWorldAt 7) (sampleRequest 4)
        (ScanPair.run (pairTarget firstScan secondScan) (ScanPair.start { entries := [] })
          overlapSchedule).first) = true ∧
      isConflictAnswer (triggerAnswer (sampleWorldAt 8) (sampleRequest 1)
        (ScanPair.run (pairTarget firstScan secondScan) (ScanPair.start { entries := [] })
          overlapSchedule).second) = true ∧
      isAcceptedAnswer (triggerAnswer (sampleWorldAt 8) (sampleRequest 1)
        (ScanPair.run (pairTarget firstScan secondScan) (ScanPair.start { entries := [] })
          overlapSchedule).second) = false) ∨
    (isAcceptedAnswer (triggerAnswer (sampleWorldAt 8) (sampleRequest 1)
        (ScanPair.run (pairTarget firstScan secondScan) (ScanPair.start { entries := [] })
          overlapSchedule).second) = true ∧
      isConflictAnswer (triggerAnswer (sampleWorldAt 7) (sampleRequest 4)
        (ScanPair.run (pairTarget firstScan secondScan) (ScanPair.start { entries := [] })
          overlapSchedule).first) = true ∧
      isAcceptedAnswer (triggerAnswer (sampleWorldAt 7) (sampleRequest 4)
        (ScanPair.run (pairTarget firstScan secondScan) (ScanPair.start { entries := [] })
          overlapSchedule).first) = false) :=
  (scan_mutual_exclusion (sampleWorldAt 7) (sampleWorldAt 8) (sampleRequest 4) (sampleRequest 1)
    (List.replicate 4 0) (List.replicate 1 0) { label := "driver" } { label := "driver" }
    firstScan secondScan rfl rfl rfl rfl rfl rfl rfl { entries := [] } (by decide)
    overlapSchedule (by decide)).1 (by decide)

/-- The two schedules at work on `thermostat-1`: when both units attempt before either ends
the first is Accepted and the second gets Conflict; when the first unit ends before the second
attempts both are Accepted. -/
theorem scan_pair_examples :
    (ScanPair.run (pairTarget firstScan secondScan) (ScanPair.start { entries := [] })
      overlapSchedule) =
      { guard := { entries := [] }, first := .released, second := .refused } ∧
    (ScanPair.run (pairTarget firstScan secondScan) (ScanPair.start { entries := [] })
      [.attempt .first, .finish .first, .attempt .second, .finish .second]) =
      { guard := { entries := [] }, first := .released, second := .released } := by
  constructor <;> decide

end DeviceSdk
